import Mathlib

/-!
# Shallow embedding of the albert-btctl Bluetooth plugin

This file embeds `src/__init__.py` of the albert-btctl repository: an Albert
launcher plugin that shells out to `bluetoothctl`, parses its textual output
into device records, and answers substring queries over the cached device
list.

Modelling choices:

* Python string methods (`strip`, `lower`, `splitlines`, `split(sep, 1)`,
  `removeprefix`, the `in` substring test) are embedded as executable
  functions over `List Char`.  `split(sep, 1)` on a string with no occurrence
  of the separator raises a `ValueError` when unpacked into two names; that
  failure is modelled by `Option` (`none` = the Python call raises).
* `subprocess.run(...).stdout.decode()` is an input of the model: parsing
  functions take the decoded stdout text as an explicit argument, and
  `listDevices` takes an oracle `details : String → String` giving the stdout
  of `bluetoothctl info <id>` for each id.
* `runDetachedProcess(cmdln, workdir)` is an effect: functions that launch
  processes return the list of `Launch` records they performed alongside the
  updated device record.
* The dynamic `str | BluetoothDevice` argument of `connectDevice` /
  `disconnectDevice` is a tagged sum `BtArg`, with a third constructor
  `other` standing for every Python value of any different type; the
  `TypeError` raised there is the `Except.error` case.
* Albert's `RankItem` score is a Python float; the two constants `0.0` and
  `1.0` that occur in the plugin are exactly representable, so the score is
  modelled as a rational number.
-/

namespace Btctl

/-- The whitespace set of Python `str.strip()` (ASCII part). -/
def pyIsSpace (c : Char) : Bool :=
  c == ' ' || c == '\t' || c == '\n' || c == '\r' || c == '\x0b' || c == '\x0c'

/-- Python `str.strip()`: drop leading and trailing whitespace. -/
def pyStrip (s : String) : String :=
  String.mk (((s.data.dropWhile pyIsSpace).reverse.dropWhile pyIsSpace).reverse)

/-- Python `str.lower()` (ASCII case mapping, all the plugin needs). -/
def pyLower (s : String) : String :=
  String.mk (s.data.map Char.toLower)

/-- Line-break characters recognised by Python `str.splitlines()`. -/
def pyIsLineBreak (c : Char) : Bool :=
  c == '\n' || c == '\r' || c == '\x0b' || c == '\x0c' ||
  c == '\x1c' || c == '\x1d' || c == '\x1e' || c == '\u0085' ||
  c == '\u2028' || c == '\u2029'

/-- Worker for `pySplitlines`: `acc` is the current line, reversed. -/
def splitlinesAux : List Char → List Char → List String
  | [], [] => []
  | [], acc => [String.mk acc.reverse]
  | '\r' :: '\n' :: cs, acc => String.mk acc.reverse :: splitlinesAux cs []
  | c :: cs, acc =>
    if pyIsLineBreak c then String.mk acc.reverse :: splitlinesAux cs []
    else splitlinesAux cs (c :: acc)

/-- Python `str.splitlines()`. -/
def pySplitlines (s : String) : List String :=
  splitlinesAux s.data []

/-- Worker for `splitFirst`: split a char list at the first occurrence of
`sep`; `none` when `sep` does not occur. -/
def splitFirstAux (sep : Char) : List Char → Option (List Char × List Char)
  | [] => none
  | c :: cs =>
    if c = sep then some ([], cs)
    else (splitFirstAux sep cs).map fun p => (c :: p.1, p.2)

/-- Python `s.split(sep, 1)` unpacked into two names: `some (before, after)`
at the first occurrence of `sep`, and `none` when `sep` does not occur (the
Python unpacking raises `ValueError` there). -/
def splitFirst (sep : Char) (s : String) : Option (String × String) :=
  (splitFirstAux sep s.data).map fun p => (String.mk p.1, String.mk p.2)

/-- Does `needle` occur at the head of `hay`? -/
def startsList : List Char → List Char → Bool
  | [], _ => true
  | _ :: _, [] => false
  | n :: ns, h :: hs => n == h && startsList ns hs

/-- Does `needle` occur anywhere in `hay`? -/
def containsList (needle : List Char) : List Char → Bool
  | [] => needle.isEmpty
  | h :: hs => startsList needle (h :: hs) || containsList needle hs

/-- Python `needle in hay` on strings. -/
def pyIn (needle hay : String) : Bool :=
  containsList needle.data hay.data

/-- Drop an exact leading segment: `some` of the rest when the first list is
a leading segment of the second, `none` otherwise. -/
def dropStart : List Char → List Char → Option (List Char)
  | [], s => some s
  | _ :: _, [] => none
  | p :: ps, c :: cs => if c = p then dropStart ps cs else none

/-- Python `s.removeprefix(p)`: drop a leading occurrence of `p`, or return
`s` unchanged when `p` does not lead. -/
def pyRemoveStart (p s : String) : String :=
  match dropStart p.data s.data with
  | some r => String.mk r
  | none => s

/-- Map a fallible function over a list, failing at the first `none` — the
shape of every Python `for` loop in the plugin that can raise mid-way. -/
def mapOpt (f : α → Option β) : List α → Option (List β)
  | [] => some []
  | a :: as =>
    match f a with
    | none => none
    | some b => (mapOpt f as).map fun bs => b :: bs

/-- The `BluetoothDevice` class: one known peripheral. -/
structure BluetoothDevice where
  id : String
  name : String
  icon : Option String
  connected : Bool
  deriving DecidableEq

/-- One `runDetachedProcess(cmdln=..., workdir=...)` call. -/
structure Launch where
  cmdln : List String
  workdir : String
  deriving DecidableEq

/-- `BluetoothDevice.disconnect`: no-op when already disconnected, otherwise
launch `bluetoothctl disconnect <id>` detached and optimistically clear the
cached flag.  Returns the updated record and the launches performed. -/
def BluetoothDevice.disconnect (d : BluetoothDevice) (workingDir : String) :
    BluetoothDevice × List Launch :=
  if !d.connected then (d, [])
  else (⟨d.id, d.name, d.icon, false⟩, [⟨["bluetoothctl", "disconnect", d.id], workingDir⟩])

/-- `BluetoothDevice.connect`: no-op when already connected, otherwise launch
`bluetoothctl connect <id>` detached and optimistically set the cached flag. -/
def BluetoothDevice.connect (d : BluetoothDevice) (workingDir : String) :
    BluetoothDevice × List Launch :=
  if d.connected then (d, [])
  else (⟨d.id, d.name, d.icon, true⟩, [⟨["bluetoothctl", "connect", d.id], workingDir⟩])

/-- An Albert `Action` as the plugin builds it (the callable is identified by
the action id it would invoke). -/
structure Action where
  id : String
  text : String
  deriving DecidableEq

/-- An Albert `StandardItem` as the plugin builds it. -/
structure StandardItem where
  id : String
  text : String
  subtext : String
  iconUrls : List String
  actions : List Action
  deriving DecidableEq

/-- An Albert `RankItem`: an item with a float score (here exact, see the
header). -/
structure RankItem where
  item : StandardItem
  score : ℚ
  deriving DecidableEq

/-- `BluetoothDevice.getIcon`: the device-category icon only for a connected
device that has one; otherwise the connection-state icon. -/
def BluetoothDevice.getIcon (d : BluetoothDevice) : String :=
  match d.connected, d.icon with
  | false, _ => "xdg:bluetooth-disabled"
  | true, none => "xdg:bluetooth-active"
  | true, some i => "xdg:" ++ i

/-- `BluetoothDevice.item`: the result entry for this device.
`fileDir` models `os.path.dirname(__file__)`. -/
def BluetoothDevice.item (d : BluetoothDevice) (fileDir : String) : StandardItem :=
  ⟨d.id,
   (if !d.connected then "Connect" else "Disconnect") ++ " " ++ d.name,
   d.id,
   [d.getIcon,
    fileDir ++ (if d.connected then "/bluetooth-active.svg" else "/bluetooth-disabled.svg")],
   [if !d.connected then (⟨"connect", "Connect"⟩ : Action) else ⟨"disconnect", "Disconnect"⟩]⟩

/-- `BluetoothDevice.rankItem`: the item scored `0.0` when connected and
`1.0` when not. -/
def BluetoothDevice.rankItem (d : BluetoothDevice) (fileDir : String) : RankItem :=
  ⟨d.item fileDir, if d.connected then 0 else 1⟩

/-- One iteration of the `deviceInfo` loop body on the parse state
`(name, connected, icon)`; `none` models the `ValueError` raised when the
stripped line has no `:` to split on. -/
def parseDetailLine (st : String × Bool × Option String) (line : String) :
    Option (String × Bool × Option String) :=
  match splitFirst ':' (pyStrip line) with
  | none => none
  | some (k, rawValue) =>
    if pyLower (pyStrip k) = "name" then
      some (pyStrip rawValue, st.2.1, st.2.2)
    else if pyLower (pyStrip k) = "connected" then
      some (st.1, pyLower (pyStrip rawValue) == "yes", st.2.2)
    else if pyLower (pyStrip k) = "icon" then
      some (st.1, st.2.1, some (pyLower (pyStrip rawValue)))
    else some st

/-- Spec-side accessor: the value a detail line contributes to the
`connected` flag — `some b` when the line's lowercased key is `connected`
(`b` = whether its lowercased value is `yes`), `none` otherwise. -/
def connLineVal (line : String) : Option Bool :=
  match splitFirst ':' (pyStrip line) with
  | none => none
  | some (k, rawValue) =>
    if pyLower (pyStrip k) = "connected" then
      some (pyLower (pyStrip rawValue) == "yes")
    else none

/-- The `deviceInfo` loop over the detail lines. -/
def detailFold : List String → String × Bool × Option String →
    Option (String × Bool × Option String)
  | [], st => some st
  | l :: ls, st =>
    match parseDetailLine st l with
    | none => none
    | some st1 => detailFold ls st1

/-- `BluetoothControl.deviceInfo`: parse the decoded stdout of
`bluetoothctl info <id>` into a device record.  `none` models the call
raising (a detail line without `:`). -/
def deviceInfo (id stdout : String) : Option BluetoothDevice :=
  (detailFold (pySplitlines stdout) ("Bluetooth Device " ++ id, false, none)).map
    fun st => ⟨id, st.1, st.2.2, st.2.1⟩

/-- One iteration of the `listDevices` loop: extract the id from one listing
line; `none` models the `ValueError` when the line has no space to split on
after `removeprefix("Device ")`. -/
def parseListingLine (x : String) : Option String :=
  (splitFirst ' ' (pyRemoveStart "Device " x)).map fun p => p.1

/-- The ids extracted by the `listDevices` loop from the decoded stdout of
`bluetoothctl devices`. -/
def listDeviceIds (stdout : String) : Option (List String) :=
  mapOpt parseListingLine (pySplitlines stdout)

/-- `BluetoothControl.listDevices`: extract the ids from the listing stdout
and fetch each device's record; `details id` is the decoded stdout of
`bluetoothctl info id`. -/
def listDevices (details : String → String) (stdout : String) :
    Option (List BluetoothDevice) :=
  (listDeviceIds stdout).bind fun ids =>
    mapOpt (fun id => deviceInfo id (details id)) ids

/-- The dynamic argument of `connectDevice` / `disconnectDevice`: a Python
value that is a string, a `BluetoothDevice`, or anything else. -/
inductive BtArg where
  | str (s : String)
  | dev (d : BluetoothDevice)
  | other
  deriving DecidableEq

/-- The one error the action entry points raise. -/
inductive BtError where
  | typeError (msg : String)
  deriving DecidableEq

/-- The `BluetoothControl` class state: its working directory. -/
structure BluetoothControl where
  currentWorkingDir : String
  deriving DecidableEq

/-- `BluetoothControl.disconnectDevice`: dispatch on the dynamic argument
type.  Returns the updated device record (for the record case) and the
launches performed, or the `TypeError`. -/
def BluetoothControl.disconnectDevice (ctl : BluetoothControl) (btDevice : BtArg) :
    Except BtError (Option BluetoothDevice × List Launch) :=
  match btDevice with
  | .dev d =>
    let r := d.disconnect ctl.currentWorkingDir
    .ok (some r.1, r.2)
  | .str s =>
    .ok (none, [⟨["bluetoothctl", "disconnect", s], ctl.currentWorkingDir⟩])
  | .other =>
    .error (.typeError "btDevice must be either a string or a BluetoothDevice object")

/-- `BluetoothControl.connectDevice`: dispatch on the dynamic argument
type. -/
def BluetoothControl.connectDevice (ctl : BluetoothControl) (btDevice : BtArg) :
    Except BtError (Option BluetoothDevice × List Launch) :=
  match btDevice with
  | .dev d =>
    let r := d.connect ctl.currentWorkingDir
    .ok (some r.1, r.2)
  | .str s =>
    .ok (none, [⟨["bluetoothctl", "connect", s], ctl.currentWorkingDir⟩])
  | .other =>
    .error (.typeError "btDevice must be either a string or a BluetoothDevice object")

/-- An Albert `Query`: its trigger marker and the typed string. -/
structure Query where
  trigger : String
  string : String
  deriving DecidableEq

/-- `Plugin.handleGlobalQuery`: empty trigger means no active query context
(no results); otherwise filter the cached list by case-insensitive substring
match on the trimmed query, an empty trimmed query matching everything. -/
def handleGlobalQuery (bluetoothDevices : List BluetoothDevice) (fileDir : String)
    (query : Query) : List RankItem :=
  if query.trigger = "" then []
  else
    (bluetoothDevices.filter fun device =>
      (pyLower (pyStrip query.string) == "") ||
        pyIn (pyLower (pyStrip query.string)) (pyLower device.name)).map
      fun device => device.rankItem fileDir

/-! ## Helper lemmas -/

/-- `String.mk` is a left inverse of `String.data`. -/
theorem mkData (s : String) : String.mk s.data = s := by
  obtain ⟨l⟩ := s
  rfl

/-- The data of an appended string. -/
theorem strAppendData (a b : String) : (a ++ b).data = a.data ++ b.data := by
  obtain ⟨l⟩ := a
  obtain ⟨m⟩ := b
  rfl

/-- Lowercasing yields the empty string exactly on the empty string. -/
theorem pyLower_eq_empty_iff (s : String) : pyLower s = "" ↔ s = "" := by
  constructor
  · intro h
    have h2 : s.data.map Char.toLower = [] := congrArg String.data h
    exact String.ext (List.map_eq_nil_iff.mp h2)
  · intro h
    rw [h]
    rfl

/-- Dropping an exact leading segment succeeds on an append. -/
theorem dropStart_append (p t : List Char) : dropStart p (p ++ t) = some t := by
  induction p with
  | nil => rfl
  | cons c cs ih => simp [dropStart, ih]

/-- Splitting at the first separator, when the separator occurs right after a
separator-free segment. -/
theorem splitFirstAux_no_sep (sep : Char) (l t : List Char) (h : sep ∉ l) :
    splitFirstAux sep (l ++ sep :: t) = some (l, t) := by
  induction l with
  | nil => simp [splitFirstAux]
  | cons c cs ih =>
    have hc : ¬ c = sep := fun hc => h (hc ▸ List.mem_cons_self c cs)
    have hcs : sep ∉ cs := fun hm => h (List.mem_cons_of_mem c hm)
    simp [splitFirstAux, hc, ih hcs]

/-- A well-formed listing line parses to its id. -/
theorem parse_wf_line (id rest : String) (h : ' ' ∉ id.data) :
    parseListingLine ("Device " ++ id ++ " " ++ rest) = some id := by
  have hdata : ("Device " ++ id ++ " " ++ rest).data
      = "Device ".data ++ (id.data ++ ' ' :: rest.data) := by
    rw [strAppendData, strAppendData, strAppendData]
    simp [List.append_assoc]
  have h1 : pyRemoveStart "Device " ("Device " ++ id ++ " " ++ rest)
      = String.mk (id.data ++ ' ' :: rest.data) := by
    unfold pyRemoveStart
    rw [hdata, dropStart_append]
  unfold parseListingLine
  rw [h1]
  unfold splitFirst
  rw [show (String.mk (id.data ++ ' ' :: rest.data)).data = id.data ++ ' ' :: rest.data from rfl]
  rw [splitFirstAux_no_sep ' ' id.data rest.data h]
  simp [mkData]

/-- `getLast?` then `getD`: a cons pushes the head into the default. -/
theorem getLastD_cons (b c : Bool) (t : List Bool) :
    ((b :: t).getLast?).getD c = (t.getLast?).getD b := by
  induction t generalizing b c with
  | nil => rfl
  | cons x xs ih =>
    show ((x :: xs).getLast?).getD c = ((x :: xs).getLast?).getD b
    rw [ih x c, ih x b]

/-- A filter whose test holds on every element of a list keeps the list. -/
theorem filter_true_of_all (p : α → Bool) (l : List α) (h : ∀ a ∈ l, p a = true) :
    l.filter p = l := by
  induction l with
  | nil => rfl
  | cons a as ih =>
    simp [List.filter_cons, h a (List.mem_cons_self a as),
      ih fun x hx => h x (List.mem_cons_of_mem a hx)]

/-- A detail line whose stripped text has no `:` makes the whole fold fail. -/
theorem detailFold_none_of_bad (lines : List String) (st : String × Bool × Option String)
    (h : ∃ l ∈ lines, splitFirst ':' (pyStrip l) = none) : detailFold lines st = none := by
  induction lines generalizing st with
  | nil =>
    obtain ⟨l, hl, _⟩ := h
    exact absurd hl (List.not_mem_nil l)
  | cons a as ih =>
    obtain ⟨l, hl, hbad⟩ := h
    rcases List.mem_cons.mp hl with h1 | h2
    · subst h1
      have hpl : parseDetailLine st l = none := by
        unfold parseDetailLine
        rw [hbad]

      simp [detailFold, hpl]
    · cases hpl : parseDetailLine st a with
      | none => simp [detailFold, hpl]
      | some st1 =>
        simp only [detailFold, hpl]
        exact ih st1 ⟨l, h2, hbad⟩

/-- A detail line whose stripped text has a `:` always parses. -/
theorem parseDetailLine_some (st : String × Bool × Option String) (l k v : String)
    (h : splitFirst ':' (pyStrip l) = some (k, v)) :
    ∃ st1, parseDetailLine st l = some st1 := by
  by_cases h1 : pyLower (pyStrip k) = "name"
  · exact ⟨(pyStrip v, st.2), by simp [parseDetailLine, h, h1]⟩
  by_cases h2 : pyLower (pyStrip k) = "connected"
  · exact ⟨(st.1, pyLower (pyStrip v) == "yes", st.2.2), by simp [parseDetailLine, h, h1, h2]⟩
  by_cases h3 : pyLower (pyStrip k) = "icon"
  · exact ⟨(st.1, st.2.1, some (pyLower (pyStrip v))), by simp [parseDetailLine, h, h1, h2, h3]⟩
  · exact ⟨st, by simp [parseDetailLine, h, h1, h2, h3]⟩

/-- When every detail line has a `:`, the whole fold succeeds. -/
theorem detailFold_some_of_good (lines : List String) (st : String × Bool × Option String)
    (h : ∀ l ∈ lines, (splitFirst ':' (pyStrip l)).isSome = true) :
    ∃ st', detailFold lines st = some st' := by
  induction lines generalizing st with
  | nil => exact ⟨st, rfl⟩
  | cons a as ih =>
    obtain ⟨⟨k, v⟩, hkv⟩ := Option.isSome_iff_exists.mp (h a (List.mem_cons_self a as))
    obtain ⟨st1, hst1⟩ := parseDetailLine_some st a k v hkv
    obtain ⟨st', hst'⟩ := ih st1 fun l hl => h l (List.mem_cons_of_mem a hl)
    exact ⟨st', by simp only [detailFold, hst1]; exact hst'⟩

/-- The `connected` component of a successful detail fold is the value of
the last `connected` line, the initial value when there is none. -/
theorem detailFold_connected (lines : List String) :
    ∀ st st' : String × Bool × Option String, detailFold lines st = some st' →
      st'.2.1 = ((lines.filterMap connLineVal).getLast?).getD st.2.1 := by
  induction lines with
  | nil =>
    intro st st' h
    simp only [detailFold, Option.some.injEq] at h
    subst h
    rfl
  | cons a as ih =>
    intro st st' h
    cases hpl : parseDetailLine st a with
    | none => simp [detailFold, hpl] at h
    | some st1 =>
      simp only [detailFold, hpl] at h
      have hrec := ih st1 st' h
      rw [List.filterMap_cons]
      unfold parseDetailLine at hpl
      split at hpl
      · exact absurd hpl (by simp)
      · rename_i k rawValue heq
        have hcl : connLineVal a
            = if pyLower (pyStrip k) = "connected" then
                some (pyLower (pyStrip rawValue) == "yes")
              else none := by
          unfold connLineVal
          rw [heq]
        split at hpl
        · rename_i h1
          have hnone : connLineVal a = none := by
            rw [hcl, if_neg]
            rw [h1]
            decide
          rw [hnone]
          have h21 : st1.2.1 = st.2.1 := by
            rw [← Option.some.injEq _ _ |>.mp hpl]
          rw [hrec, h21]
        · split at hpl
          · rename_i h1 h2
            have hsome : connLineVal a = some (pyLower (pyStrip rawValue) == "yes") := by
              rw [hcl, if_pos h2]
            have h21 : st1.2.1 = (pyLower (pyStrip rawValue) == "yes") := by
              rw [← Option.some.injEq _ _ |>.mp hpl]
            rw [hsome, hrec, h21, getLastD_cons]
          · split at hpl
            · rename_i h1 h2 h3
              have hnone : connLineVal a = none := by
                rw [hcl, if_neg h2]
              have h21 : st1.2.1 = st.2.1 := by
                rw [← Option.some.injEq _ _ |>.mp hpl]
              rw [hnone, hrec, h21]
            · rename_i h1 h2 h3
              have hnone : connLineVal a = none := by
                rw [hcl, if_neg h2]
              have h21 : st1.2.1 = st.2.1 := by
                rw [← Option.some.injEq _ _ |>.mp hpl]
              rw [hnone, hrec, h21]

/-! ## Claims -/

/-- C4 counterexample: a payload can contain a `Connected: yes` line and
still produce a record with `connected = false` — a later `Connected` line
overrides the earlier one, since the loop lets the last occurrence win. -/
theorem claim_C4_cex :
    deviceInfo "AA:BB" "Connected: yes\nConnected: no"
        = some ⟨"AA:BB", "Bluetooth Device AA:BB", none, false⟩
      ∧ connLineVal "Connected: yes" = some true :=
  ⟨rfl, rfl⟩

/-- C4 (amended): the record's `connected` flag is the value of the last
line whose key is `connected` (any letter case) — true exactly when that
line's value is `yes` (any letter case) — and defaults to false when the
payload has no `connected` line. -/
theorem claim_C4_connected_last (id payload : String) (d : BluetoothDevice)
    (h : deviceInfo id payload = some d) :
    d.connected = (((pySplitlines payload).filterMap connLineVal).getLast?).getD false := by
  unfold deviceInfo at h
  cases hf : detailFold (pySplitlines payload) ("Bluetooth Device " ++ id, false, none) with
  | none => rw [hf] at h; simp at h
  | some st =>
    rw [hf] at h
    simp only [Option.map_some', Option.some.injEq] at h
    rw [← h]
    exact detailFold_connected (pySplitlines payload) _ st hf

/-- Witness for C4 at concrete payloads: a lone case-insensitive
`Connected: YES` line yields a connected record, and a payload with no
`connected` line yields a disconnected one. -/
theorem claim_C4_connected_last_witness :
    (⟨"AA", "Bluetooth Device AA", none, true⟩ : BluetoothDevice).connected
        = (((pySplitlines "Connected: YES").filterMap connLineVal).getLast?).getD false
      ∧ (⟨"AA", "Foo", none, false⟩ : BluetoothDevice).connected
        = (((pySplitlines "Name: Foo").filterMap connLineVal).getLast?).getD false :=
  ⟨claim_C4_connected_last "AA" "Connected: YES"
      ⟨"AA", "Bluetooth Device AA", none, true⟩ (by decide),
   claim_C4_connected_last "AA" "Name: Foo" ⟨"AA", "Foo", none, false⟩ (by decide)⟩

/-- C3: an empty query trigger marker (no active query context) yields an
empty result list regardless of the cached devices — distinct from an empty
query string with an active trigger, which yields one result per cached
device. -/
theorem claim_C3_empty_trigger (devices : List BluetoothDevice) (fileDir qs : String) :
    handleGlobalQuery devices fileDir ⟨"", qs⟩ = []
      ∧ ∀ t : String, t ≠ "" →
        (handleGlobalQuery devices fileDir ⟨t, ""⟩).length = devices.length := by
  constructor
  · simp [handleGlobalQuery]
  · intro t ht
    unfold handleGlobalQuery
    rw [if_neg ht, List.length_map]
    exact congrArg List.length (filter_true_of_all _ devices fun d _ => rfl)

/-- Witness for C3 at a concrete device list. -/
theorem claim_C3_empty_trigger_witness :
    handleGlobalQuery [⟨"AA", "Foo", none, false⟩] "/p" ⟨"", "Foo"⟩ = []
      ∧ (handleGlobalQuery [⟨"AA", "Foo", none, false⟩] "/p" ⟨"bt", ""⟩).length = 1 :=
  ⟨(claim_C3_empty_trigger [⟨"AA", "Foo", none, false⟩] "/p" "Foo").1,
   (claim_C3_empty_trigger [⟨"AA", "Foo", none, false⟩] "/p" "Foo").2 "bt" (by decide)⟩

/-- C1 counterexample: a detail payload with a separator-free line is not
tolerated — `deviceInfo` produces no record at all (the Python unpacking
raises `ValueError`), even though another line supplies a name. -/
theorem claim_C1_cex : deviceInfo "AA:BB" "Name: Foo\njunk" = none := by rfl

/-- C1 (amended): a detail line without a `:` separator aborts the whole
record — `deviceInfo` fails and returns no device record; a record (with
defaults, id preserved) is produced exactly when every line of the payload
has a separator, an empty payload giving the all-default record. -/
theorem claim_C1_no_sep_aborts (id payload : String) :
    ((∃ l ∈ pySplitlines payload, splitFirst ':' (pyStrip l) = none) →
        deviceInfo id payload = none)
      ∧ ((∀ l ∈ pySplitlines payload, (splitFirst ':' (pyStrip l)).isSome = true) →
        ∃ d, deviceInfo id payload = some d ∧ d.id = id)
      ∧ deviceInfo id "" = some ⟨id, "Bluetooth Device " ++ id, none, false⟩ := by
  refine ⟨fun h => ?_, fun h => ?_, rfl⟩
  · unfold deviceInfo
    rw [detailFold_none_of_bad _ _ h]
    rfl
  · obtain ⟨st, hst⟩ := detailFold_some_of_good _ _ h
    exact ⟨⟨id, st.1, st.2.2, st.2.1⟩, by unfold deviceInfo; rw [hst]; rfl, rfl⟩

/-- Witness for C1 at concrete payloads. -/
theorem claim_C1_no_sep_aborts_witness :
    deviceInfo "AA" "junk" = none
      ∧ ∃ d, deviceInfo "AA" "Name: Foo" = some d ∧ d.id = "AA" :=
  ⟨(claim_C1_no_sep_aborts "AA" "junk").1 ⟨"junk", by decide, by decide⟩,
   (claim_C1_no_sep_aborts "AA" "Name: Foo").2.1 (by decide)⟩

/-- C2: with an active trigger, an empty trimmed query returns one result
per cached device (same ids in order), and a non-empty query returns only
cached devices whose lowercased name contains the trimmed, lowercased query
as a substring. -/
theorem claim_C2_matcher (devices : List BluetoothDevice) (fileDir : String) (q : Query)
    (htrig : q.trigger ≠ "") :
    (pyStrip q.string = "" →
        (handleGlobalQuery devices fileDir q).map (fun r => r.item.id)
          = devices.map fun d => d.id)
      ∧ (pyStrip q.string ≠ "" →
        ∀ r ∈ handleGlobalQuery devices fileDir q, ∃ d ∈ devices,
          r = d.rankItem fileDir
            ∧ pyIn (pyLower (pyStrip q.string)) (pyLower d.name) = true) := by
  unfold handleGlobalQuery
  rw [if_neg htrig]
  constructor
  · intro hempty
    have hs : pyLower (pyStrip q.string) = "" := by rw [hempty]; rfl
    have hfil : List.filter
        (fun device =>
          (pyLower (pyStrip q.string) == "") ||
            pyIn (pyLower (pyStrip q.string)) (pyLower device.name)) devices = devices := by
      apply filter_true_of_all
      intro d _
      rw [hs]
      rfl
    rw [hfil, List.map_map]
    rfl
  · intro hne r hr
    have hs : pyLower (pyStrip q.string) ≠ "" :=
      fun hcon => hne ((pyLower_eq_empty_iff (pyStrip q.string)).mp hcon)
    obtain ⟨d, hdf, hrd⟩ := List.mem_map.mp hr
    obtain ⟨hd, hp⟩ := List.mem_filter.mp hdf
    refine ⟨d, hd, hrd.symm, ?_⟩
    rw [beq_eq_false_iff_ne.mpr hs] at hp
    simpa using hp

/-- Witness for C2 at a concrete device list and concrete queries. -/
theorem claim_C2_matcher_witness :
    ((handleGlobalQuery [⟨"AA", "Foo", none, false⟩] "/p" ⟨"bt", " "⟩).map (fun r => r.item.id)
        = [(⟨"AA", "Foo", none, false⟩ : BluetoothDevice)].map fun d => d.id)
      ∧ ∀ r ∈ handleGlobalQuery [⟨"AA", "Foo", none, false⟩] "/p" ⟨"bt", " FO "⟩,
          ∃ d ∈ [(⟨"AA", "Foo", none, false⟩ : BluetoothDevice)],
            r = d.rankItem "/p" ∧ pyIn (pyLower (pyStrip " FO ")) (pyLower d.name) = true :=
  ⟨(claim_C2_matcher [⟨"AA", "Foo", none, false⟩] "/p" ⟨"bt", " "⟩ (by decide)).1 (by decide),
   (claim_C2_matcher [⟨"AA", "Foo", none, false⟩] "/p" ⟨"bt", " FO "⟩ (by decide)).2
     (by decide)⟩

/-- A list of well-formed listing lines parses to the list of its ids. -/
theorem listing_ids (pairs : List (String × String))
    (h : ∀ p ∈ pairs, ' ' ∉ p.1.data) :
    mapOpt parseListingLine (pairs.map fun p => "Device " ++ p.1 ++ " " ++ p.2)
      = some (pairs.map fun p => p.1) := by
  induction pairs with
  | nil => rfl
  | cons a as ih =>
    simp only [List.map_cons, mapOpt,
      parse_wf_line a.1 a.2 (h a (List.mem_cons_self a as))]
    rw [ih fun p hp => h p (List.mem_cons_of_mem a hp)]
    rfl

/-- `deviceInfo` always carries over the id it was given. -/
theorem deviceInfo_id (id payload : String) (d : BluetoothDevice)
    (h : deviceInfo id payload = some d) : d.id = id := by
  unfold deviceInfo at h
  cases hf : detailFold (pySplitlines payload) ("Bluetooth Device " ++ id, false, none) with
  | none => rw [hf] at h; simp at h
  | some st =>
    rw [hf] at h
    simp only [Option.map_some', Option.some.injEq] at h
    rw [← h]

/-- When every detail fetch succeeds, the device loop produces one record
per id, ids preserved in order. -/
theorem mapOpt_info (details : String → String) (ids : List String)
    (h : ∀ id ∈ ids, (deviceInfo id (details id)).isSome = true) :
    ∃ devs, mapOpt (fun id => deviceInfo id (details id)) ids = some devs
      ∧ devs.map (fun d => d.id) = ids ∧ devs.length = ids.length := by
  induction ids with
  | nil => exact ⟨[], rfl, rfl, rfl⟩
  | cons i is ih =>
    obtain ⟨d, hd⟩ := Option.isSome_iff_exists.mp (h i (List.mem_cons_self i is))
    obtain ⟨devs, h1, h2, h3⟩ := ih fun x hx => h x (List.mem_cons_of_mem i hx)
    refine ⟨d :: devs, ?_, ?_, ?_⟩
    · simp only [mapOpt, hd, h1]
      rfl
    · simp [deviceInfo_id i (details i) d hd, h2]
    · simp [h3]

/-- C5: a listing payload of N well-formed `Device <id> <rest>` lines yields
exactly N device records carrying those ids in the payload's order (when
each detail fetch parses), and an empty listing payload yields an empty
device list. -/
theorem claim_C5_listing (details : String → String) (payload : String)
    (pairs : List (String × String))
    (hlines : pySplitlines payload = pairs.map fun p => "Device " ++ p.1 ++ " " ++ p.2)
    (hids : ∀ p ∈ pairs, ' ' ∉ p.1.data)
    (hinfo : ∀ p ∈ pairs, (deviceInfo p.1 (details p.1)).isSome = true) :
    (∃ devs, listDevices details payload = some devs
      ∧ devs.map (fun d => d.id) = pairs.map (fun p => p.1)
      ∧ devs.length = pairs.length)
    ∧ listDevices details "" = some [] := by
  constructor
  · have hall : ∀ x ∈ pairs.map (fun p => p.1), (deviceInfo x (details x)).isSome = true := by
      intro x hx
      obtain ⟨p, hp, rfl⟩ := List.mem_map.mp hx
      exact hinfo p hp
    obtain ⟨devs, h1, h2, h3⟩ := mapOpt_info details (pairs.map fun p => p.1) hall
    refine ⟨devs, ?_, h2, by rw [h3, List.length_map]⟩
    unfold listDevices listDeviceIds
    rw [hlines, listing_ids pairs hids]
    exact h1
  · rfl

/-- Witness for C5 at a concrete one-line listing payload. -/
theorem claim_C5_listing_witness :
    ∃ devs, listDevices (fun _ => "Name: Foo") "Device AA:BB Foo" = some devs
      ∧ devs.map (fun d => d.id) = [("AA:BB", "Foo")].map (fun p => p.1)
      ∧ devs.length = [("AA:BB", "Foo")].length :=
  (claim_C5_listing (fun _ => "Name: Foo") "Device AA:BB Foo" [("AA:BB", "Foo")]
    (by decide) (by decide) (by decide)).1

/-- C6: every query result's rank score is one of exactly two fixed
constants, determined solely by the connected flag: `0.0` for a connected
device, `1.0` for a disconnected one — the connected score being the lower
of the two. -/
theorem claim_C6_score (d : BluetoothDevice) (fileDir : String) :
    (d.rankItem fileDir).score = (if d.connected then (0 : ℚ) else 1)
      ∧ (0 : ℚ) < 1 :=
  ⟨rfl, by norm_num⟩

/-- C8: an action target that is neither a string nor a `BluetoothDevice`
raises a `TypeError` in both `connectDevice` and `disconnectDevice`; string
and device-record targets never produce an error. -/
theorem claim_C8_typeError (ctl : BluetoothControl) (s : String) (d : BluetoothDevice) :
    ctl.disconnectDevice .other
        = .error (.typeError "btDevice must be either a string or a BluetoothDevice object")
      ∧ ctl.connectDevice .other
        = .error (.typeError "btDevice must be either a string or a BluetoothDevice object")
      ∧ (∃ r, ctl.disconnectDevice (.str s) = .ok r)
      ∧ (∃ r, ctl.connectDevice (.str s) = .ok r)
      ∧ (∃ r, ctl.disconnectDevice (.dev d) = .ok r)
      ∧ (∃ r, ctl.connectDevice (.dev d) = .ok r) :=
  ⟨rfl, rfl, ⟨_, rfl⟩, ⟨_, rfl⟩, ⟨_, rfl⟩, ⟨_, rfl⟩⟩

/-- C7: on a device record, `disconnect` is a no-op when the cached flag is
already false and `connect` a no-op when it is already true (no process
launched, flag unchanged); otherwise the external command is launched and
the cached flag flipped immediately. -/
theorem claim_C7_noop_or_flip (d : BluetoothDevice) (w : String) :
    (d.connected = false → d.disconnect w = (d, []))
      ∧ (d.connected = true → d.connect w = (d, []))
      ∧ (d.connected = true →
          d.disconnect w
            = (⟨d.id, d.name, d.icon, false⟩, [⟨["bluetoothctl", "disconnect", d.id], w⟩]))
      ∧ (d.connected = false →
          d.connect w
            = (⟨d.id, d.name, d.icon, true⟩, [⟨["bluetoothctl", "connect", d.id], w⟩])) := by
  refine ⟨fun h => ?_, fun h => ?_, fun h => ?_, fun h => ?_⟩ <;>
    simp [BluetoothDevice.disconnect, BluetoothDevice.connect, h]

/-- Witness for C7 at concrete devices. -/
theorem claim_C7_noop_or_flip_witness :
    (⟨"AA", "Foo", none, false⟩ : BluetoothDevice).disconnect "/p"
        = (⟨"AA", "Foo", none, false⟩, [])
      ∧ (⟨"AA", "Foo", none, true⟩ : BluetoothDevice).disconnect "/p"
        = (⟨"AA", "Foo", none, false⟩, [⟨["bluetoothctl", "disconnect", "AA"], "/p"⟩]) :=
  ⟨(claim_C7_noop_or_flip ⟨"AA", "Foo", none, false⟩ "/p").1 rfl,
   (claim_C7_noop_or_flip ⟨"AA", "Foo", none, true⟩ "/p").2.2.1 rfl⟩

/-- C10: the device-category icon is used only for a connected device that
has one; a disconnected device always gets the disabled state icon, and a
connected device without a category icon gets the active state icon. -/
theorem claim_C10_icon (d : BluetoothDevice) :
    (d.connected = false → d.getIcon = "xdg:bluetooth-disabled")
      ∧ (d.connected = true → d.icon = none → d.getIcon = "xdg:bluetooth-active")
      ∧ (∀ i, d.connected = true → d.icon = some i → d.getIcon = "xdg:" ++ i) := by
  obtain ⟨id, name, icon, conn⟩ := d
  refine ⟨fun h => ?_, fun h h2 => ?_, fun i h h2 => ?_⟩ <;>
    simp_all [BluetoothDevice.getIcon]

/-- Witness for C10 at concrete devices. -/
theorem claim_C10_icon_witness :
    (⟨"AA", "Foo", some "audio-headset", false⟩ : BluetoothDevice).getIcon
        = "xdg:bluetooth-disabled"
      ∧ (⟨"AA", "Foo", none, true⟩ : BluetoothDevice).getIcon = "xdg:bluetooth-active"
      ∧ (⟨"AA", "Foo", some "audio-headset", true⟩ : BluetoothDevice).getIcon
        = "xdg:audio-headset" :=
  ⟨(claim_C10_icon ⟨"AA", "Foo", some "audio-headset", false⟩).1 rfl,
   (claim_C10_icon ⟨"AA", "Foo", none, true⟩).2.1 rfl rfl,
   (claim_C10_icon ⟨"AA", "Foo", some "audio-headset", true⟩).2.2 "audio-headset" rfl rfl⟩

/-- C9: a raw id string passed to `disconnectDevice` / `connectDevice`
always launches the external command — no cached `connected` flag is
consulted in the string branch. -/
theorem claim_C9_string_always_launches (ctl : BluetoothControl) (s : String) :
    ctl.disconnectDevice (.str s)
        = .ok (none, [⟨["bluetoothctl", "disconnect", s], ctl.currentWorkingDir⟩])
      ∧ ctl.connectDevice (.str s)
        = .ok (none, [⟨["bluetoothctl", "connect", s], ctl.currentWorkingDir⟩]) :=
  ⟨rfl, rfl⟩

end Btctl
